import Mathlib

/-!
# Verification of the spotizerr progress-reporting routes (`routes/prgs.py`)

This file shallowly embeds the status-resolution and lifecycle endpoints of
`routes/prgs.py` and proves the frozen claims about them.

Modelling conventions, shared by all definitions below:

* Python dictionaries read through `.get` with a fixed key set are embedded as
  Lean structures with `Option` fields (`none` = key absent).  Per the spec's
  data model, every persisted status event carries at least a `status` key, so
  the Python truthiness test `if last_status:` (a dict is falsy only when
  empty) is embedded as `Option.isSome`.
* Python numbers appearing in events are embedded as `Int`; the float
  expression `min(int((current / total) * 100), 100)` is embedded with exact
  IEEE binary64 semantics (correctly rounded int division with its
  `OverflowError`, round-to-nearest-even multiplication overflowing silently
  to infinity, truncation with `OverflowError` on infinity), so that e.g.
  `57/100` yields `56` exactly as CPython computes it.
* Exceptions escaping the endpoint bodies are embedded via `Except`.  Note
  that Flask's `abort` raises a `werkzeug.exceptions.HTTPException`, which is
  an `Exception` subclass: an `abort(400, ...)`/`abort(404, ...)` executed
  *inside* the endpoint's `try` block is caught by the trailing
  `except Exception as e: abort(500, f"An error occurred: {e}")` and therefore
  surfaces to the client as a 500 Internal error.  The embedding reproduces
  this faithfully.
* The legacy log file is embedded as the list of its lines (the result of
  `content.splitlines()`), each line carrying its raw text together with the
  result of `json.loads` on it (`none` when the line is not parseable JSON);
  JSON parsing itself is Python library code and is not re-implemented.
-/

namespace Spotizerr

/-! ## Python string helpers -/

/-- Characters of `p` occur at the head of `l` (helper for the embedding of
Python's substring test `sub in s` and of `str.endswith`). -/
def startsWithList : List Char → List Char → Bool
  | [], _ => true
  | _ :: _, [] => false
  | a :: as, b :: bs => a == b && startsWithList as bs

/-- `sub` occurs contiguously somewhere in the second list. -/
def containsSub (sub : List Char) : List Char → Bool
  | [] => startsWithList sub []
  | c :: cs => startsWithList sub (c :: cs) || containsSub sub cs

/-- Embedding of Python's substring containment `sub in s`. -/
def pyInStr (sub s : String) : Bool :=
  containsSub sub.toList s.toList

/-- Embedding of Python's `s.endswith(suf)`. -/
def pyEndsWith (s suf : String) : Bool :=
  startsWithList suf.toList.reverse s.toList.reverse

/-- Numeric value of an ASCII digit character. -/
def digitVal (c : Char) : Nat := c.toNat - 48

/-- Parse the tail of a Python integer literal: digits with single
underscores allowed between digits, as accepted by `int(...)`. -/
def pyDigitsAux : List Char → Nat → Option Nat
  | [], acc => some acc
  | '_' :: rest, acc =>
    match rest with
    | [] => none
    | c :: cs => if c.isDigit then pyDigitsAux cs (acc * 10 + digitVal c) else none
  | c :: cs, acc => if c.isDigit then pyDigitsAux cs (acc * 10 + digitVal c) else none

/-- Parse a nonempty run of digits (with `_` separators) as Python's `int`
does after sign and whitespace handling. -/
def pyDigits? : List Char → Option Nat
  | [] => none
  | c :: cs => if c.isDigit then pyDigitsAux cs (digitVal c) else none

/-- Strip leading and trailing whitespace, as Python's `int(str)` does. -/
def pyStrip (s : String) : List Char :=
  ((s.toList.dropWhile Char.isWhitespace).reverse.dropWhile Char.isWhitespace).reverse

/-- Embedding of Python's `int(s)` on strings: optional surrounding
whitespace, optional sign, base-10 digits with underscore separators;
`none` models the `ValueError` raised on any other input. -/
def pyInt? (s : String) : Option Int :=
  match pyStrip s with
  | '+' :: rest => (pyDigits? rest).map (fun n => (n : Int))
  | '-' :: rest => (pyDigits? rest).map (fun n => -(n : Int))
  | rest => (pyDigits? rest).map (fun n => (n : Int))

/-- Splitting accumulator: cut the character list at every `'/'`.  Used to
embed Python's `current_raw.split("/")` (separator occurrences delimit
fields, so consecutive separators and boundary separators yield empty
fields, exactly as in Python). -/
def splitSlashAux : List Char → List Char → List (List Char)
  | [], acc => [acc.reverse]
  | c :: cs, acc => if c = '/' then acc.reverse :: splitSlashAux cs [] else splitSlashAux cs (c :: acc)

/-- Embedding of Python's `s.split("/")`. -/
def pySplitSlash (s : String) : List String :=
  (splitSlashAux s.toList []).map (fun l => String.mk l)

/-! ### IEEE binary64 arithmetic for the percent computation

The Python expression `min(int((current / total) * 100), 100)` runs in IEEE
binary64 ("double") arithmetic: `current / total` on ints is CPython's
*correctly rounded* (round-to-nearest, ties-to-even) true division, raising
`OverflowError` when the rounded quotient reaches `2^1024`; `* 100` is an
IEEE multiplication that silently overflows to infinity; `int(...)`
truncates a finite double toward zero and raises `OverflowError` on
infinity.  A finite nonnegative double is represented below as a pair
`(m, e)` with value `m * 2^e`, `m < 2^53`, `e ≥ -1074` (zero as `(0, 0)`;
subnormals with `e = -1074`). -/

/-- Number of bits of `n` (`0` for `0`); the first argument is fuel, always
called with fuel `≥ log2 n`, and each step halves `n`. -/
def bitlenAux : Nat → Nat → Nat
  | 0, _ => 0
  | fuel + 1, n => if n = 0 then 0 else bitlenAux fuel (n / 2) + 1

/-- Number of bits of `n`: `bitlen 5 = 3`, `bitlen 0 = 0`. -/
def bitlen (n : Nat) : Nat := bitlenAux n n

/-- Round the rational `N / D` (`D > 0`) to the nearest integer, ties to
even. -/
def rneDiv (N D : Nat) : Nat :=
  let q := N / D
  let r := N % D
  if 2 * r < D then q
  else if D < 2 * r then q + 1
  else if q % 2 = 0 then q else q + 1

/-- Round the positive rational `n / d` into binary64 (round-to-nearest,
ties-to-even), as CPython's `long_true_divide` does; `none` models the
`OverflowError` raised when the rounded result reaches `2^1024`. -/
def rneRatToDouble (n d : Nat) : Option (Nat × Int) :=
  if n = 0 then some (0, 0)
  else
    let diff : Int := (bitlen n : Int) - (bitlen d : Int)
    let ge2diff : Bool :=
      if 0 ≤ diff then d * 2 ^ diff.toNat ≤ n else d ≤ n * 2 ^ (-diff).toNat
    let E : Int := if ge2diff then diff else diff - 1
    let g : Int := if E < -1022 then -1074 else E - 52
    let m : Nat :=
      if 0 ≤ g then rneDiv n (d * 2 ^ g.toNat)
      else rneDiv (n * 2 ^ (-g).toNat) d
    let p : Nat × Int := if m = 2 ^ 53 then (2 ^ 52, g + 1) else (m, g)
    if 972 ≤ p.2 then none else some p

/-- IEEE multiplication of a finite nonnegative double `m * 2^e` by `100`
(round-to-nearest, ties-to-even); `none` models overflow to infinity, which
CPython's float arithmetic produces silently. -/
def mul100Double (m : Nat) (e : Int) : Option (Nat × Int) :=
  let P := 100 * m
  if P = 0 then some (0, 0)
  else
    let s : Nat := bitlen P - 53
    if s = 0 then some (P, e)
    else
      let m2 := rneDiv P (2 ^ s)
      let p : Nat × Int := if m2 = 2 ^ 53 then (2 ^ 52, e + s + 1) else (m2, e + s)
      if 972 ≤ p.2 then none else some p

/-- Truncate a finite nonnegative double `m * 2^e` toward zero. -/
def truncDouble (m : Nat) (e : Int) : Nat :=
  if 0 ≤ e then m * 2 ^ e.toNat else m / 2 ^ (-e).toNat

/-- Embedding of the Python expression `min(int((c / t) * 100), 100)` for
`t ≠ 0`, with IEEE binary64 semantics as CPython executes it; errors carry
the Python exception message (`OverflowError` from the int division, or
from converting the infinite product). -/
def pyFloatPercent (c t : Int) : Except String Int :=
  let neg : Bool := decide (c < 0) != decide (t < 0)
  match rneRatToDouble c.natAbs t.natAbs with
  | none => .error "integer division result too large for a float"
  | some (m, e) =>
    match mul100Double m e with
    | none => .error "cannot convert float infinity to integer"
    | some p =>
      let mag : Int := truncDouble p.1 p.2
      .ok (min (if neg then -mag else mag) 100)

/-! ## JSON values (for the legacy log reader) -/

/-- JSON values as produced by `json.loads`, to the granularity the code
distinguishes: objects (with their key/value pairs, duplicate keys already
resolved to the last occurrence as `json.loads` does is *not* assumed — the
lookup below takes the last matching key itself), and non-object values.
`null` also stands for Python's `None`. -/
inductive JsonVal where
  | null
  | bool (b : Bool)
  | int (n : Int)
  | str (s : String)
  | arr (xs : List JsonVal)
  | obj (kvs : List (String × JsonVal))

/-- Key lookup in a JSON object; the last occurrence of a duplicated key
wins, matching `json.loads` construction of Python dicts. -/
def jLookup (kvs : List (String × JsonVal)) (k : String) : Option JsonVal :=
  kvs.foldl (fun acc p => if p.1 = k then some p.2 else acc) none

/-- Embedding of Python's `d.get(k, default)` on a JSON object. -/
def jGetD (kvs : List (String × JsonVal)) (k : String) (d : JsonVal) : JsonVal :=
  (jLookup kvs k).getD d

/-- Whether a JSON value is an object (a Python dict). -/
def JsonVal.isObj : JsonVal → Bool
  | .obj _ => true
  | _ => false

/-- Python truthiness of a JSON value. -/
def jTruthy : JsonVal → Bool
  | .null => false
  | .bool b => b
  | .int n => n != 0
  | .str s => s != ""
  | .arr xs => !xs.isEmpty
  | .obj kvs => !kvs.isEmpty

/-! ## Data model of the current (task-record) system -/

/-- The raw value found under the `current_track` key of a history event.
The code tests `isinstance(current_raw, str)`; all non-string shapes behave
alike there, so they are collapsed into one constructor. -/
inductive RawVal where
  | str (s : String)
  | nonstr
deriving DecidableEq, Repr

/-- A status event of the current system, embedded as the fixed key set the
code reads through `.get`.  `none` models an absent key. -/
structure StatusEvent where
  status : Option String := none
  message : Option String := none
  track : Option String := none
  current_track : Option RawVal := none
  parsed_current_track : Option Int := none
  parsed_total_tracks : Option Int := none
  overall_progress : Option Int := none
  album : Option String := none
  song : Option String := none
  percent : Option Int := none
  percentage : Option Int := none
  time_elapsed : Option Int := none
deriving DecidableEq, Repr

/-- The `original_request` mapping stored in task metadata, restricted to
the keys the endpoint reads. -/
structure OrigReq where
  display_title : Option String := none
  display_type : Option String := none
  display_artist : Option String := none
deriving DecidableEq, Repr

/-- Task metadata as returned by `get_task_info`. -/
structure TaskInfo where
  type : Option String := none
  name : Option String := none
  artist : Option String := none
  original_request : Option OrigReq := none
deriving DecidableEq, Repr

/-- One line of a legacy PRG file: its raw text and the result of
`json.loads` on it (`none` when parsing raises). -/
structure LegacyLine where
  raw : String
  parsed : Option JsonVal

/-- The backing stores the endpoints read: Redis task records
(`task:<id>:info` and `task:<id>:status`, keyed here by the id directly since
the key pattern is injective in the id) and the legacy PRG directory. -/
structure SysState where
  taskInfo : String → Option TaskInfo
  taskStatus : String → Option (List StatusEvent)
  files : String → Option (List LegacyLine)

/-! ## The task-record gateway (`routes/utils/celery_tasks.py`, not in scope) -/

/-- Modelled from the spec: `routes/utils/celery_tasks.py` is outside the
specified sources; its `ProgressState` constants are reconstructed from the
spec's Event Classifier table (§4.1).  The table assigns the category
`progress` and the "Downloading track C/T (P%)" rendering to the
`track_progress` discriminator, while the code reaches that rendering only
when the discriminator equals the literal `"progress"` and assigns the
category only when it equals `ProgressState.TRACK_PROGRESS`; the spec's
behavior therefore forces `TRACK_PROGRESS = "progress"` (and likewise
`REAL_TIME = "real_time"`). -/
def ProgressState.COMPLETE : String := "complete"

/-- Modelled from the spec: see `ProgressState.COMPLETE`. -/
def ProgressState.DONE : String := "done"

/-- Modelled from the spec: see `ProgressState.COMPLETE`. -/
def ProgressState.TRACK_COMPLETE : String := "track_complete"

/-- Modelled from the spec: see `ProgressState.COMPLETE`. -/
def ProgressState.ERROR : String := "error"

/-- Modelled from the spec: see `ProgressState.COMPLETE`. -/
def ProgressState.CANCELLED : String := "cancelled"

/-- Modelled from the spec: see `ProgressState.COMPLETE`. -/
def ProgressState.TRACK_PROGRESS : String := "progress"

/-- Modelled from the spec: see `ProgressState.COMPLETE`. -/
def ProgressState.REAL_TIME : String := "real_time"

/-- Modelled from the spec: `get_task_info` fetches job metadata from the
key-value store, absent-returning (§4.3). -/
def get_task_info (st : SysState) (task_id : String) : Option TaskInfo :=
  st.taskInfo task_id

/-- Modelled from the spec: `get_task_status` fetches the full ordered event
history (§4.3); a job with no status record has an empty history. -/
def get_task_status (st : SysState) (task_id : String) : List StatusEvent :=
  (st.taskStatus task_id).getD []

/-- Modelled from the spec: `get_last_task_status` fetches the latest event —
"the most recently appended event" (§3) — absent when the history is empty. -/
def get_last_task_status (st : SysState) (task_id : String) : Option StatusEvent :=
  (get_task_status st task_id).getLast?

/-- Modelled from the spec: the outcome value returned by the gateway's
`cancel`/`retry` operations (§4.3); the endpoints treat it opaquely, so a
free-form status/message record suffices. -/
structure GatewayOutcome where
  status : String := ""
  message : String := ""
deriving DecidableEq, Repr

/-! ## The normalized status view and error taxonomy -/

/-- The HTTP-level failures an endpoint can produce via `abort`. -/
inductive ApiError where
  | badRequest (msg : String)
  | notFound (msg : String)
  | internal (msg : String)
deriving DecidableEq, Repr

/-- The response dict assembled for a current-system job
(`get_prg_file`, lines 56–172).  Fields that the code only sets on some
branches are `Option`s with `none` meaning "key absent from the dict". -/
structure CurResponse where
  type : String
  name : String
  artist : String
  last_line : Option StatusEvent
  original_request : OrigReq
  display_title : String
  display_type : String
  display_artist : String
  status_count : Nat
  task_id : String
  timestamp : Int
  event : Option String := none
  progress_message : Option String := none
  current_track : Option String := none
  track_number : Option Int := none
  total_tracks : Option Int := none
  progress_percent : Option Int := none
  album : Option String := none
  current_song : Option String := none
  percent : Option Int := none
  percentage : Option Int := none
  time_elapsed : Option Int := none
deriving DecidableEq, Repr

/-- Event classification of `get_prg_file` lines 74–84: map the latest
event's status discriminator to the semantic event category. -/
def classifyEvent (e : StatusEvent) : String :=
  let status_type := e.status.getD "unknown"
  if status_type = ProgressState.COMPLETE ∨ status_type = ProgressState.DONE then
    "complete"
  else if status_type = ProgressState.TRACK_COMPLETE then
    "track_complete"
  else if status_type = ProgressState.ERROR then
    "error"
  else if status_type = ProgressState.TRACK_PROGRESS ∨ status_type = ProgressState.REAL_TIME then
    "progress"
  else
    "update"

/-- The base response of `get_prg_file` lines 56–68, before any
status-specific enrichment. -/
def mkBase (st : SysState) (now : Int) (task_id : String) (ti : TaskInfo) : CurResponse :=
  let oreq := ti.original_request.getD {}
  { type := ti.type.getD ""
    name := ti.name.getD ""
    artist := ti.artist.getD ""
    last_line := get_last_task_status st task_id
    original_request := oreq
    display_title := oreq.display_title.getD (ti.name.getD "")
    display_type := oreq.display_type.getD (ti.type.getD "")
    display_artist := oreq.display_artist.getD (ti.artist.getD "")
    status_count := (get_task_status st task_id).length
    task_id := task_id
    timestamp := now }

/-- The predicate of the backwards history scan (`get_prg_file` line 140):
an event with `status == "progress"` and a truthy `track` field. -/
def isProgTrack (e : StatusEvent) : Bool :=
  e.status == some "progress" && e.track.getD "" != ""

/-- The `processing` fallback of `get_prg_file` lines 136–166: scan the
history backwards for the most recent progress event with a track, parse its
`current_track` fraction, and render the message.  A zero parsed total makes
the Python code raise `ZeroDivisionError`, which escapes to the
`except Exception` handler and aborts the request with a 500. -/
def applyProcessing (r : CurResponse) (last : StatusEvent) (hist : List StatusEvent) :
    Except ApiError CurResponse :=
  match hist.reverse.find? isProgTrack with
  | none => .ok { r with progress_message := some (last.message.getD "Processing download...") }
  | some p =>
    let track_info := p.track.getD ""
    let r1 := { r with current_track := some track_info }
    match p.current_track with
    | some (RawVal.str s) =>
      if pyInStr "/" s then
        let parts := pySplitSlash s
        match pyInt? (parts.getD 0 ""), pyInt? (parts.getD 1 "") with
        | some c, some t =>
          if t = 0 then
            .error (.internal "An error occurred: division by zero")
          else
            match pyFloatPercent c t with
            | .error msg => .error (.internal ("An error occurred: " ++ msg))
            | .ok pct =>
              .ok { r1 with
                    track_number := some c
                    total_tracks := some t
                    progress_percent := some pct
                    progress_message := some ("Processing track " ++ toString c ++ "/" ++
                      toString t ++ ": " ++ track_info) }
        | _, _ => .ok { r1 with progress_message := some ("Processing: " ++ track_info) }
      else
        .ok { r1 with progress_message := some ("Processing: " ++ track_info) }
    | _ => .ok { r1 with progress_message := some ("Processing: " ++ track_info) }

/-- The current-system branch of `get_prg_file` (lines 42–172): assemble the
base response, classify the latest event and render the progress message. -/
def resolveCurrent (st : SysState) (now : Int) (task_id : String) (ti : TaskInfo) :
    Except ApiError CurResponse :=
  let base := mkBase st now task_id ti
  match get_last_task_status st task_id with
  | none => .ok base
  | some e =>
    let status_type := e.status.getD "unknown"
    let r0 := { base with event := some (classifyEvent e) }
    if status_type = ProgressState.COMPLETE ∨ status_type = ProgressState.ERROR ∨
        status_type = ProgressState.CANCELLED then
      .ok { r0 with progress_message := some (e.message.getD ("Download " ++ status_type)) }
    else if status_type = "progress" ∧ e.track.getD "" ≠ "" then
      let track_info := e.track.getD ""
      let current := e.parsed_current_track.getD 0
      let total := e.parsed_total_tracks.getD 0
      let progress := e.overall_progress.getD 0
      let r1 := { r0 with
                  current_track := some track_info
                  track_number := some current
                  total_tracks := some total
                  progress_percent := some progress
                  album := some (e.album.getD "") }
      if current ≠ 0 ∧ total ≠ 0 then
        .ok { r1 with progress_message := some ("Downloading track " ++ toString current ++
              "/" ++ toString total ++ " (" ++ toString progress ++ "%): " ++ track_info) }
      else if track_info ≠ "" then
        .ok { r1 with progress_message := some ("Downloading: " ++ track_info) }
      else
        .ok r1
    else if status_type = "real_time" then
      let song := e.song.getD ""
      let pct := e.percent.getD 0
      let r1 := { r0 with
                  current_song := some song
                  percent := some pct
                  percentage := some (e.percentage.getD 0)
                  time_elapsed := some (e.time_elapsed.getD 0) }
      if song ≠ "" then
        .ok { r1 with progress_message := some ("Downloading " ++ song ++ " (" ++
              toString pct ++ "%)") }
      else
        .ok { r1 with progress_message := some ("Downloading (" ++ toString pct ++ "%)") }
    else if status_type = "initializing" then
      let alb := e.album.getD ""
      if alb ≠ "" then
        .ok { r0 with progress_message := some ("Initializing download for " ++ alb) }
      else
        .ok { r0 with progress_message := some "Initializing download..." }
    else if status_type = "processing" then
      applyProcessing r0 e (get_task_status st task_id)
    else
      .ok { r0 with progress_message := some (e.message.getD ("Status: " ++ status_type)) }

/-! ## The legacy log reader -/

/-- The response dict assembled for a legacy PRG file (`get_prg_file` lines
185–263).  The empty-file response carries no `timestamp` key, hence the
`Option`.  `JsonVal.null` stands for Python `None` as well as JSON null
(the two are rendered identically by `jsonify`). -/
structure LegacyResponse where
  type : JsonVal
  name : JsonVal
  artist : JsonVal
  last_line : JsonVal
  original_request : JsonVal
  display_title : JsonVal
  display_type : JsonVal
  display_artist : JsonVal
  task_id : String
  event : String
  timestamp : Option Int

/-- First-line handling of the legacy reader (lines 200–222): a JSON-object
first line seeds `original_request` (its `original_request` member when the
key is present, else the object itself); display fields are then extracted,
but only when the request value is truthy, and a truthy non-object value
makes the `.get` calls raise, which the local handler converts back to a
`None` request with blank display fields.  Returns
`(original_request, display_title, display_type, display_artist)`. -/
def firstLineInfo (l : LegacyLine) : JsonVal × JsonVal × JsonVal × JsonVal :=
  match l.parsed with
  | some (JsonVal.obj kvs) =>
    let orig := (jLookup kvs "original_request").getD (JsonVal.obj kvs)
    if jTruthy orig then
      match orig with
      | JsonVal.obj okvs =>
        (JsonVal.obj okvs,
         jGetD okvs "display_title" (jGetD okvs "name" (JsonVal.str "")),
         jGetD okvs "display_type" (jGetD okvs "type" (JsonVal.str "")),
         jGetD okvs "display_artist" (jGetD okvs "artist" (JsonVal.str "")))
      | _ => (JsonVal.null, JsonVal.str "", JsonVal.str "", JsonVal.str "")
    else
      (orig, JsonVal.str "", JsonVal.str "", JsonVal.str "")
  | _ => (JsonVal.null, JsonVal.str "", JsonVal.str "", JsonVal.str "")

/-- Second-line handling of the legacy reader (lines 224–242): a JSON-object
second line seeds `(type, name, artist)`; anything else (absent line,
unparseable line, or non-object value whose `.get` raises into the local
handler) yields blanks. -/
def secondLineInfo (lines : List LegacyLine) : JsonVal × JsonVal × JsonVal :=
  match lines.get? 1 with
  | some l2 =>
    match l2.parsed with
    | some (JsonVal.obj kvs) =>
      (jGetD kvs "type" (JsonVal.str ""), jGetD kvs "name" (JsonVal.str ""),
       jGetD kvs "artist" (JsonVal.str ""))
    | _ => (JsonVal.str "", JsonVal.str "", JsonVal.str "")
  | none => (JsonVal.str "", JsonVal.str "", JsonVal.str "")

/-- The legacy branch of `get_prg_file` (lines 181–263), given the lines of
an existing file. -/
def readLegacy (task_id : String) (now : Int) (lines : List LegacyLine) : LegacyResponse :=
  match lines with
  | [] =>
    { type := JsonVal.str "", name := JsonVal.str "", artist := JsonVal.str "",
      last_line := JsonVal.null, original_request := JsonVal.null,
      display_title := JsonVal.str "", display_type := JsonVal.str "",
      display_artist := JsonVal.str "", task_id := task_id, event := "unknown",
      timestamp := none }
  | l1 :: rest =>
    let fl := firstLineInfo l1
    let snd := secondLineInfo (l1 :: rest)
    let ll := ((l1 :: rest).getLast?).getD l1
    { type := snd.1, name := snd.2.1, artist := snd.2.2,
      last_line := match ll.parsed with | some v => v | none => JsonVal.str ll.raw,
      original_request := fl.1,
      display_title := fl.2.1, display_type := fl.2.2.1, display_artist := fl.2.2.2,
      task_id := task_id, event := "unknown", timestamp := some now }

/-! ## The endpoints -/

/-- The body produced by `get_prg_file`: either a current-system view or a
legacy view. -/
inductive GetResponse where
  | cur (r : CurResponse)
  | legacy (r : LegacyResponse)

/-- `GET /api/prgs/<task_id>` (`get_prg_file`, lines 26–267).  The
path-traversal `abort(400)` executes inside the `try`, so it is caught by
`except Exception` and surfaces as a 500; only the genuine
`FileNotFoundError` reaches the dedicated 404 handler. -/
def get_prg_file (st : SysState) (now : Int) (task_id : String) :
    Except ApiError GetResponse :=
  match get_task_info st task_id with
  | some ti => (resolveCurrent st now task_id ti).map GetResponse.cur
  | none =>
    if pyInStr ".." task_id || pyInStr "/" task_id then
      .error (.internal "An error occurred: 400 Bad Request: Invalid file request")
    else
      match st.files task_id with
      | none => .error (.notFound "Task or file not found")
      | some lines => .ok (.legacy (readLegacy task_id now lines))

/-- Result of `delete_prg_file`: the HTTP response, the stores after the
call, and whether a cancellation request was issued to the gateway. -/
structure DeleteResult where
  response : Except ApiError (String × Nat)
  state : SysState
  cancelRequested : Bool

/-- `DELETE /api/prgs/delete/<task_id>` (`delete_prg_file`, lines 270–314).
For a current-system id: `cancel_task` is called (its returned outcome is
bound to `cancel_result` and never inspected), then both Redis records are
deleted and a 200 acknowledgment returned.  Otherwise the legacy checks run;
every `abort(400)`/`abort(404)` in the body executes inside the `try` and is
converted to a 500 by the `except Exception` handler.  The gateway's
`cancel_task` is modelled from the spec as a total outcome-returning call
(§4.3: `cancel(id) -> outcome`). -/
def delete_prg_file (cancel : String → GatewayOutcome) (st : SysState) (task_id : String) :
    DeleteResult :=
  match get_task_info st task_id with
  | some _ =>
    let _cancel_result := cancel task_id
    { response := .ok ("Task " ++ task_id ++ " deleted successfully", 200)
      state := { st with
                 taskInfo := fun x => if x = task_id then none else st.taskInfo x
                 taskStatus := fun x => if x = task_id then none else st.taskStatus x }
      cancelRequested := true }
  | none =>
    if pyInStr ".." task_id || pyInStr "/" task_id then
      { response := .error (.internal "An error occurred: 400 Bad Request: Invalid file request")
        state := st, cancelRequested := false }
    else if !pyEndsWith task_id ".prg" then
      { response := .error
          (.internal "An error occurred: 400 Bad Request: Only .prg files can be deleted")
        state := st, cancelRequested := false }
    else
      match st.files task_id with
      | none =>
        { response := .error (.internal "An error occurred: 404 Not Found: File not found")
          state := st, cancelRequested := false }
      | some _ =>
        { response := .ok ("File " ++ task_id ++ " deleted successfully", 200)
          state := { st with files := fun x => if x = task_id then none else st.files x }
          cancelRequested := false }

/-- Result of the retry/cancel endpoints: either the gateway outcome passed
through (HTTP 200), or the structured unsupported-operation payload
`{"status": status, "message": message}` with its HTTP code, or an internal
failure. -/
inductive LifecycleResult where
  | gateway (out : GatewayOutcome)
  | unsupported (status : String) (message : String) (code : Nat)
  | internal (msg : String)
deriving DecidableEq, Repr

/-- `POST /api/prgs/retry/<task_id>` (`retry_task_endpoint`, lines 344–368).
The gateway's `retry_task` is modelled from the spec as a total
outcome-returning call (§4.3: `retry(id) -> outcome`). -/
def retry_task_endpoint (retry : String → GatewayOutcome) (st : SysState)
    (task_id : String) : LifecycleResult :=
  match get_task_info st task_id with
  | some _ => .gateway (retry task_id)
  | none =>
    .unsupported "error"
      "Retry for old system is not supported in the new API. Please use the new task ID format."
      400

/-- `POST /api/prgs/cancel/<task_id>` (`cancel_task_endpoint`, lines
371–395).  The gateway's `cancel_task` is modelled from the spec as a total
outcome-returning call (§4.3: `cancel(id) -> outcome`). -/
def cancel_task_endpoint (cancel : String → GatewayOutcome) (st : SysState)
    (task_id : String) : LifecycleResult :=
  match get_task_info st task_id with
  | some _ => .gateway (cancel task_id)
  | none =>
    .unsupported "error"
      "Cancellation for old system is not supported in the new API. Please use the new task ID format."
      400

/-! ## Helper lemmas -/

/-- Every successful branch of the `processing` fallback leaves the base
bookkeeping fields of the response untouched. -/
theorem applyProcessing_ok_fields {r : CurResponse} {last : StatusEvent}
    {hist : List StatusEvent} {r' : CurResponse}
    (h : applyProcessing r last hist = Except.ok r') :
    r'.status_count = r.status_count ∧ r'.timestamp = r.timestamp := by
  unfold applyProcessing at h
  repeat' ((try dsimp only at h); split at h)
  all_goals first
    | (injection h with h; subst h; exact ⟨rfl, rfl⟩)
    | exact Except.noConfusion h

/-- Every successful branch of the current-system resolver reports the
length of the fetched history as `status_count` and the resolution time as
`timestamp`. -/
theorem resolveCurrent_ok_fields {st : SysState} {now : Int} {id : String}
    {ti : TaskInfo} {r : CurResponse}
    (h : resolveCurrent st now id ti = Except.ok r) :
    r.status_count = (get_task_status st id).length ∧ r.timestamp = now := by
  unfold resolveCurrent at h
  repeat' ((try dsimp only at h); split at h)
  all_goals first
    | (injection h with h; subst h; exact ⟨rfl, rfl⟩)
    | exact applyProcessing_ok_fields h

/-! ## C5 -/

/-- C5: for every current-system identifier, whenever resolution produces a
view, the view's `status_count` equals the length of the full fetched event
history and its `timestamp` is the resolution time `now`, not any event's
time. -/
theorem c5_status_count_and_timestamp (st : SysState) (now : Int) (id : String)
    (ti : TaskInfo) (r : CurResponse)
    (hti : st.taskInfo id = some ti)
    (hok : get_prg_file st now id = Except.ok (GetResponse.cur r)) :
    r.status_count = (get_task_status st id).length ∧ r.timestamp = now := by
  unfold get_prg_file get_task_info at hok
  rw [hti] at hok
  dsimp only at hok
  cases hres : resolveCurrent st now id ti with
  | error e => rw [hres] at hok; exact Except.noConfusion hok
  | ok r0 =>
    rw [hres] at hok
    simp only [Except.map] at hok
    injection hok with hok
    injection hok with hok
    subst hok
    exact resolveCurrent_ok_fields hres

/-- State for the C5 witness: a job with two appended events. -/
def stC5 : SysState :=
  { taskInfo := fun id => if id = "job5" then some { name := some "N" } else none
    taskStatus := fun id => if id = "job5" then
        some [ { status := some "queued" }, { status := some "queued" } ]
      else none
    files := fun _ => none }

/-- The view `get_prg_file` produces on `stC5`. -/
def rC5 : CurResponse :=
  { type := "", name := "N", artist := "", last_line := some { status := some "queued" },
    original_request := {}, display_title := "N", display_type := "", display_artist := "",
    status_count := 2, task_id := "job5", timestamp := 7, event := some "update",
    progress_message := some "Status: queued" }

/-- Witness for C5 at a concrete two-event job. -/
theorem c5_status_count_and_timestamp_witness :
    stC5.taskInfo "job5" = some { name := some "N" } ∧
    get_prg_file stC5 7 "job5" = Except.ok (GetResponse.cur rC5) ∧
    rC5.status_count = (get_task_status stC5 "job5").length ∧ rC5.timestamp = 7 :=
  ⟨rfl, rfl,
   c5_status_count_and_timestamp stC5 7 "job5" { name := some "N" } rC5 rfl rfl⟩

/-! ## C2 -/

/-- C2: a current-system identifier with metadata but an empty event history
resolves successfully (neither Not-Found nor Internal), with `last_line`
equal to null and the `event` field absent from the view (and no progress
message either). -/
theorem c2_metadata_without_events (st : SysState) (now : Int) (id : String)
    (ti : TaskInfo)
    (hti : st.taskInfo id = some ti)
    (hempty : get_task_status st id = []) :
    get_prg_file st now id = Except.ok (GetResponse.cur (mkBase st now id ti)) ∧
    (mkBase st now id ti).last_line = none ∧
    (mkBase st now id ti).event = none ∧
    (mkBase st now id ti).progress_message = none := by
  have hlast : get_last_task_status st id = none := by
    unfold get_last_task_status
    rw [hempty]
    rfl
  refine ⟨?_, ?_, rfl, rfl⟩
  · unfold get_prg_file get_task_info
    rw [hti]
    unfold resolveCurrent
    rw [hlast]
    rfl
  · simp only [mkBase]
    exact hlast


/-- State for the C2 witness: metadata present, zero events. -/
def stC2 : SysState :=
  { taskInfo := fun id => if id = "job2" then some { name := some "A" } else none
    taskStatus := fun id => if id = "job2" then some [] else none
    files := fun _ => none }

/-- Witness for C2 at a concrete zero-event job. -/
theorem c2_metadata_without_events_witness :
    stC2.taskInfo "job2" = some { name := some "A" } ∧
    get_task_status stC2 "job2" = [] ∧
    (get_prg_file stC2 5 "job2" =
        Except.ok (GetResponse.cur (mkBase stC2 5 "job2" { name := some "A" })) ∧
      (mkBase stC2 5 "job2" { name := some "A" }).last_line = none ∧
      (mkBase stC2 5 "job2" { name := some "A" }).event = none ∧
      (mkBase stC2 5 "job2" { name := some "A" }).progress_message = none) :=
  ⟨rfl, rfl, c2_metadata_without_events stC2 5 "job2" { name := some "A" } rfl rfl⟩

/-! ## C3 -/

/-- C3: deleting a current-system identifier requests cancellation, removes
both the metadata record and the event-history record, and acknowledges
success — for every possible outcome value of the cancellation call, never
an Internal error. -/
theorem c3_delete_requests_cancel_then_removes (cancel : String → GatewayOutcome)
    (st : SysState) (id : String) (ti : TaskInfo)
    (hti : st.taskInfo id = some ti) :
    (delete_prg_file cancel st id).response =
        Except.ok ("Task " ++ id ++ " deleted successfully", 200) ∧
    (delete_prg_file cancel st id).cancelRequested = true ∧
    ((delete_prg_file cancel st id).state).taskInfo id = none ∧
    ((delete_prg_file cancel st id).state).taskStatus id = none := by
  unfold delete_prg_file get_task_info
  rw [hti]
  refine ⟨rfl, rfl, ?_, ?_⟩ <;> simp

/-- State for the C3 witness. -/
def stC3 : SysState :=
  { taskInfo := fun id => if id = "job3" then some {} else none
    taskStatus := fun id => if id = "job3" then some [ { status := some "processing" } ] else none
    files := fun _ => none }

/-- Witness for C3, with a cancellation call whose outcome reports failure:
deletion still removes both records and acknowledges success. -/
theorem c3_delete_requests_cancel_then_removes_witness :
    stC3.taskInfo "job3" = some {} ∧
    ((delete_prg_file (fun _ => { status := "error", message := "task already finished" })
        stC3 "job3").response =
      Except.ok ("Task " ++ "job3" ++ " deleted successfully", 200) ∧
    (delete_prg_file (fun _ => { status := "error", message := "task already finished" })
        stC3 "job3").cancelRequested = true ∧
    ((delete_prg_file (fun _ => { status := "error", message := "task already finished" })
        stC3 "job3").state).taskInfo "job3" = none ∧
    ((delete_prg_file (fun _ => { status := "error", message := "task already finished" })
        stC3 "job3").state).taskStatus "job3" = none) :=
  ⟨rfl, c3_delete_requests_cancel_then_removes
    (fun _ => { status := "error", message := "task already finished" }) stC3 "job3" {} rfl⟩

/-! ## C7 -/

/-- C7: retry and cancel on an identifier unknown to the current system fail
with the explicit structured unsupported-operation payload (HTTP 400,
`status = "error"` plus a message), never with an Internal error. -/
theorem c7_legacy_retry_cancel_unsupported (retry cancel : String → GatewayOutcome)
    (st : SysState) (id : String)
    (h : st.taskInfo id = none) :
    retry_task_endpoint retry st id = LifecycleResult.unsupported "error"
      "Retry for old system is not supported in the new API. Please use the new task ID format."
      400 ∧
    cancel_task_endpoint cancel st id = LifecycleResult.unsupported "error"
      "Cancellation for old system is not supported in the new API. Please use the new task ID format."
      400 ∧
    (∀ m, retry_task_endpoint retry st id ≠ LifecycleResult.internal m) ∧
    (∀ m, cancel_task_endpoint cancel st id ≠ LifecycleResult.internal m) := by
  unfold retry_task_endpoint cancel_task_endpoint get_task_info
  rw [h]
  exact ⟨rfl, rfl, fun m hc => LifecycleResult.noConfusion hc,
    fun m hc => LifecycleResult.noConfusion hc⟩

/-- State for the C7 witness: no current-system jobs at all. -/
def stC7 : SysState :=
  { taskInfo := fun _ => none
    taskStatus := fun _ => none
    files := fun id => if id = "legacy.prg" then some [] else none }

/-- Witness for C7 at a concrete legacy identifier. -/
theorem c7_legacy_retry_cancel_unsupported_witness :
    stC7.taskInfo "legacy.prg" = none ∧
    (retry_task_endpoint (fun _ => {}) stC7 "legacy.prg" = LifecycleResult.unsupported "error"
      "Retry for old system is not supported in the new API. Please use the new task ID format."
      400 ∧
    cancel_task_endpoint (fun _ => {}) stC7 "legacy.prg" = LifecycleResult.unsupported "error"
      "Cancellation for old system is not supported in the new API. Please use the new task ID format."
      400 ∧
    (∀ m, retry_task_endpoint (fun _ => {}) stC7 "legacy.prg" ≠ LifecycleResult.internal m) ∧
    (∀ m, cancel_task_endpoint (fun _ => {}) stC7 "legacy.prg" ≠ LifecycleResult.internal m)) :=
  ⟨rfl, c7_legacy_retry_cancel_unsupported (fun _ => {}) (fun _ => {}) stC7 "legacy.prg" rfl⟩

/-! ## C9 -/

/-- C9: a latest event with status `"cancelled"` is classified with the
generic category `"update"` — unlike `complete`/`error` statuses, which
receive their own categories — and the progress message is the event's own
message or the generic `"Download cancelled"`. -/
theorem c9_cancelled_classified_update (st : SysState) (now : Int) (id : String)
    (ti : TaskInfo) (e : StatusEvent)
    (hti : st.taskInfo id = some ti)
    (hlast : get_last_task_status st id = some e)
    (hstat : e.status = some "cancelled") :
    (get_prg_file st now id = Except.ok (GetResponse.cur
        { (mkBase st now id ti) with
          event := some "update"
          progress_message := some (e.message.getD "Download cancelled") }) ∧
      classifyEvent e = "update") ∧
    (∀ e' : StatusEvent, e'.status = some "complete" → classifyEvent e' = "complete") ∧
    (∀ e' : StatusEvent, e'.status = some "error" → classifyEvent e' = "error") := by
  have hclass : classifyEvent e = "update" := by
    simp [classifyEvent, hstat, ProgressState.COMPLETE, ProgressState.DONE,
      ProgressState.TRACK_COMPLETE, ProgressState.ERROR, ProgressState.TRACK_PROGRESS,
      ProgressState.REAL_TIME]
  refine ⟨⟨?_, hclass⟩, ?_, ?_⟩
  · unfold get_prg_file get_task_info
    rw [hti]
    dsimp only
    unfold resolveCurrent
    rw [hlast]
    simp [hstat, hclass, ProgressState.COMPLETE, ProgressState.ERROR, ProgressState.CANCELLED]
    rfl
  · intro e' h'
    simp [classifyEvent, h', ProgressState.COMPLETE, ProgressState.DONE]
  · intro e' h'
    simp [classifyEvent, h', ProgressState.COMPLETE, ProgressState.DONE,
      ProgressState.TRACK_COMPLETE, ProgressState.ERROR]

/-- State for the C9 witness: the latest (and only) event is cancelled and
carries no message. -/
def stC9 : SysState :=
  { taskInfo := fun id => if id = "job9" then some {} else none
    taskStatus := fun id => if id = "job9" then some [ { status := some "cancelled" } ] else none
    files := fun _ => none }

/-- Witness for C9: the resolved view carries category `"update"` and the
generic cancelled message. -/
theorem c9_cancelled_classified_update_witness :
    stC9.taskInfo "job9" = some {} ∧
    get_last_task_status stC9 "job9" = some { status := some "cancelled" } ∧
    (get_prg_file stC9 3 "job9" = Except.ok (GetResponse.cur
        { (mkBase stC9 3 "job9" {}) with
          event := some "update"
          progress_message := some "Download cancelled" }) ∧
      classifyEvent { status := some "cancelled" } = "update") :=
  ⟨rfl, rfl,
   ((c9_cancelled_classified_update stC9 3 "job9" {} { status := some "cancelled" }
      rfl rfl rfl).1)⟩

/-! ## C6 -/

/-- C6: a latest event classified as track progress (status `"progress"`,
the spec's `track_progress` discriminator) with a track name renders, when
both parsed counts are known and non-zero, exactly
`"Downloading track c/t (P%): <track>"` with `P` the event's own
`overall_progress` value unchanged (also echoed as `progress_percent`);
and when a count is unknown (or zero), `"Downloading: <track>"`. -/
theorem c6_track_progress_message (st : SysState) (now : Int) (id : String)
    (ti : TaskInfo) (e : StatusEvent) (tr : String)
    (hti : st.taskInfo id = some ti)
    (hlast : get_last_task_status st id = some e)
    (hstat : e.status = some "progress")
    (htrack : e.track = some tr) (htr : tr ≠ "") :
    (e.parsed_current_track.getD 0 ≠ 0 → e.parsed_total_tracks.getD 0 ≠ 0 →
      get_prg_file st now id = Except.ok (GetResponse.cur
        { (mkBase st now id ti) with
          event := some "progress"
          current_track := some tr
          track_number := some (e.parsed_current_track.getD 0)
          total_tracks := some (e.parsed_total_tracks.getD 0)
          progress_percent := some (e.overall_progress.getD 0)
          album := some (e.album.getD "")
          progress_message := some ("Downloading track " ++
            toString (e.parsed_current_track.getD 0) ++ "/" ++
            toString (e.parsed_total_tracks.getD 0) ++ " (" ++
            toString (e.overall_progress.getD 0) ++ "%): " ++ tr) })) ∧
    (e.parsed_current_track.getD 0 = 0 ∨ e.parsed_total_tracks.getD 0 = 0 →
      get_prg_file st now id = Except.ok (GetResponse.cur
        { (mkBase st now id ti) with
          event := some "progress"
          current_track := some tr
          track_number := some (e.parsed_current_track.getD 0)
          total_tracks := some (e.parsed_total_tracks.getD 0)
          progress_percent := some (e.overall_progress.getD 0)
          album := some (e.album.getD "")
          progress_message := some ("Downloading: " ++ tr) })) := by
  have hclass : classifyEvent e = "progress" := by
    simp [classifyEvent, hstat, ProgressState.COMPLETE, ProgressState.DONE,
      ProgressState.TRACK_COMPLETE, ProgressState.ERROR, ProgressState.TRACK_PROGRESS,
      ProgressState.REAL_TIME]
  constructor
  · intro hc ht
    unfold get_prg_file get_task_info
    rw [hti]
    dsimp only
    unfold resolveCurrent
    rw [hlast]
    simp [hstat, htrack, htr, hclass, hc, ht, ProgressState.COMPLETE,
      ProgressState.ERROR, ProgressState.CANCELLED]
    rfl
  · intro hzero
    unfold get_prg_file get_task_info
    rw [hti]
    dsimp only
    unfold resolveCurrent
    rw [hlast]
    rcases hzero with hz | hz <;>
      (simp [hstat, htrack, htr, hclass, hz, ProgressState.COMPLETE,
        ProgressState.ERROR, ProgressState.CANCELLED]
       try rfl)

/-- State for the C6 witness: the spec's own example event. -/
def stC6 : SysState :=
  { taskInfo := fun id => if id = "job6" then some {} else none
    taskStatus := fun id => if id = "job6" then
        some [ { status := some "progress", track := some "Song A",
                 parsed_current_track := some 3, parsed_total_tracks := some 10,
                 overall_progress := some 25 } ]
      else none
    files := fun _ => none }

/-- The spec's example event for C6. -/
def eC6 : StatusEvent :=
  { status := some "progress", track := some "Song A", parsed_current_track := some 3,
    parsed_total_tracks := some 10, overall_progress := some 25 }

/-- Witness for C6 at the spec's example (`track="Song A"`, 3/10, P=25):
the message is exactly `"Downloading track 3/10 (25%): Song A"`. -/
theorem c6_track_progress_message_witness :
    (3 : Int) ≠ 0 ∧ (10 : Int) ≠ 0 ∧
    get_prg_file stC6 0 "job6" = Except.ok (GetResponse.cur
      { (mkBase stC6 0 "job6" {}) with
        event := some "progress"
        current_track := some "Song A"
        track_number := some 3
        total_tracks := some 10
        progress_percent := some 25
        album := some ""
        progress_message := some "Downloading track 3/10 (25%): Song A" }) :=
  ⟨by decide, by decide,
   (c6_track_progress_message stC6 0 "job6" {} eC6 "Song A" rfl rfl rfl rfl
      (by decide)).1 (by decide) (by decide)⟩

/-! ## C1 -/

/-- The `processing` event used by the C1 scenarios. -/
def eProc : StatusEvent := { status := some "processing" }

/-- A prior progress event with `current_track = "2/5"` (the spec's
example). -/
def eProg25 : StatusEvent :=
  { status := some "progress", track := some "Song B",
    current_track := some (RawVal.str "2/5") }

/-- State for the C1 witness: history `[progress "2/5", processing]`. -/
def stC1 : SysState :=
  { taskInfo := fun id => if id = "job1" then some {} else none
    taskStatus := fun id => if id = "job1" then some [eProg25, eProc] else none
    files := fun _ => none }

/-- C1 (amended): for a latest event with status `"processing"`, the
resolver scans the full history backwards for the most recent event with
status `"progress"` and a non-empty track; if that event's `current_track`
is a string containing `"/"`, the *first two* split parts (the split may
yield more than two) are parsed as integers `c`, `t`: for `t ≠ 0` the
message is `"Processing track c/t: <track>"` and `progress_percent` is the
value of the Python float expression `min(int((c / t) * 100), 100)` in IEEE
binary64 arithmetic — `40` for `"2/5"`, but `56` for `"57/100"` and `57`
for `"29/50"` because of double rounding — while a quotient or product
beyond float range aborts the whole resolution with an Internal
`OverflowError` diagnostic; for `t = 0` the resolution fails Internal with
a division-by-zero diagnostic; any parse failure degrades to
`"Processing: <track>"`; and with no such prior event the message is the
latest event's own message or the generic processing message. -/
theorem c1_processing_fallback (st : SysState) (now : Int) (id : String)
    (ti : TaskInfo) (e : StatusEvent)
    (hti : st.taskInfo id = some ti)
    (hlast : get_last_task_status st id = some e)
    (hstat : e.status = some "processing") :
    (∀ p s c t pct, (get_task_status st id).reverse.find? isProgTrack = some p →
      p.current_track = some (RawVal.str s) → pyInStr "/" s = true →
      pyInt? ((pySplitSlash s).getD 0 "") = some c →
      pyInt? ((pySplitSlash s).getD 1 "") = some t → t ≠ 0 →
      pyFloatPercent c t = Except.ok pct →
      get_prg_file st now id = Except.ok (GetResponse.cur
        { (mkBase st now id ti) with
          event := some "update"
          current_track := some (p.track.getD "")
          track_number := some c
          total_tracks := some t
          progress_percent := some pct
          progress_message := some ("Processing track " ++ toString c ++ "/" ++
            toString t ++ ": " ++ p.track.getD "") })) ∧
    (∀ p s c, (get_task_status st id).reverse.find? isProgTrack = some p →
      p.current_track = some (RawVal.str s) → pyInStr "/" s = true →
      pyInt? ((pySplitSlash s).getD 0 "") = some c →
      pyInt? ((pySplitSlash s).getD 1 "") = some 0 →
      get_prg_file st now id =
        Except.error (ApiError.internal "An error occurred: division by zero")) ∧
    (∀ p s c t msg, (get_task_status st id).reverse.find? isProgTrack = some p →
      p.current_track = some (RawVal.str s) → pyInStr "/" s = true →
      pyInt? ((pySplitSlash s).getD 0 "") = some c →
      pyInt? ((pySplitSlash s).getD 1 "") = some t → t ≠ 0 →
      pyFloatPercent c t = Except.error msg →
      get_prg_file st now id =
        Except.error (ApiError.internal ("An error occurred: " ++ msg))) ∧
    (∀ p, (get_task_status st id).reverse.find? isProgTrack = some p →
      (p.current_track = none ∨ p.current_track = some RawVal.nonstr ∨
        (∃ s, p.current_track = some (RawVal.str s) ∧ pyInStr "/" s = false) ∨
        (∃ s, p.current_track = some (RawVal.str s) ∧ pyInStr "/" s = true ∧
          (pyInt? ((pySplitSlash s).getD 0 "") = none ∨
           pyInt? ((pySplitSlash s).getD 1 "") = none))) →
      get_prg_file st now id = Except.ok (GetResponse.cur
        { (mkBase st now id ti) with
          event := some "update"
          current_track := some (p.track.getD "")
          progress_message := some ("Processing: " ++ p.track.getD "") })) ∧
    ((get_task_status st id).reverse.find? isProgTrack = none →
      get_prg_file st now id = Except.ok (GetResponse.cur
        { (mkBase st now id ti) with
          event := some "update"
          progress_message := some (e.message.getD "Processing download...") })) ∧
    (get_prg_file stC1 2 "job1" = Except.ok (GetResponse.cur
        { (mkBase stC1 2 "job1" {}) with
          event := some "update"
          current_track := some "Song B"
          track_number := some 2
          total_tracks := some 5
          progress_percent := some 40
          progress_message := some "Processing track 2/5: Song B" })) ∧
    (pyFloatPercent 2 5 = Except.ok 40 ∧
      pyFloatPercent 57 100 = Except.ok 56 ∧
      pyFloatPercent 29 50 = Except.ok 57) := by
  have hclass : classifyEvent e = "update" := by
    simp [classifyEvent, hstat, ProgressState.COMPLETE, ProgressState.DONE,
      ProgressState.TRACK_COMPLETE, ProgressState.ERROR, ProgressState.TRACK_PROGRESS,
      ProgressState.REAL_TIME]
  have hbranch : get_prg_file st now id = Except.map GetResponse.cur
      (applyProcessing { (mkBase st now id ti) with event := some "update" } e
        (get_task_status st id)) := by
    unfold get_prg_file get_task_info
    rw [hti]
    dsimp only
    unfold resolveCurrent
    rw [hlast]
    simp [hstat, hclass, ProgressState.COMPLETE, ProgressState.ERROR, ProgressState.CANCELLED]
  refine ⟨?_, ?_, ?_, ?_, ?_, ?_, ?_⟩
  · intro p s c t pct hfind hcur hslash hc0 hc1 ht hpf
    rw [hbranch]
    unfold applyProcessing
    rw [hfind]
    dsimp only
    rw [hcur]
    dsimp only
    rw [if_pos hslash, hc0, hc1]
    dsimp only
    rw [if_neg ht, hpf]
    rfl
  · intro p s c hfind hcur hslash hc0 hc1
    rw [hbranch]
    unfold applyProcessing
    rw [hfind]
    dsimp only
    rw [hcur]
    dsimp only
    rw [if_pos hslash, hc0, hc1]
    dsimp only
    rw [if_pos rfl]
    rfl
  · intro p s c t msg hfind hcur hslash hc0 hc1 ht hpf
    rw [hbranch]
    unfold applyProcessing
    rw [hfind]
    dsimp only
    rw [hcur]
    dsimp only
    rw [if_pos hslash, hc0, hc1]
    dsimp only
    rw [if_neg ht, hpf]
    rfl
  · intro p hfind hfail
    rw [hbranch]
    unfold applyProcessing
    rw [hfind]
    dsimp only
    rcases hfail with hn | hn | ⟨s, hn, hns⟩ | ⟨s, hn, hs, hp⟩
    · rw [hn]
      rfl
    · rw [hn]
      rfl
    · rw [hn]
      dsimp only
      rw [hns]
      rw [if_neg Bool.false_ne_true]
      rfl
    · rw [hn]
      dsimp only
      rw [if_pos hs]
      rcases hp with hp | hp
      · rw [hp]
        rfl
      · cases h0 : pyInt? ((pySplitSlash s).getD 0 "") with
        | none => rfl
        | some c =>
          rw [hp]
          rfl
  · intro hfind
    rw [hbranch]
    unfold applyProcessing
    rw [hfind]
    rfl
  · exact rfl
  · exact ⟨rfl, rfl, rfl⟩

/-- Witness for C1 at the spec's own scenario (`current_track = "2/5"`):
hypotheses are discharged at `stC1` and the numbered-message clause applies
with `c = 2`, `t = 5`, yielding `progress_percent = 40`. -/
theorem c1_processing_fallback_witness :
    stC1.taskInfo "job1" = some {} ∧
    get_last_task_status stC1 "job1" = some eProc ∧
    eProc.status = some "processing" ∧
    get_prg_file stC1 2 "job1" = Except.ok (GetResponse.cur
      { (mkBase stC1 2 "job1" {}) with
        event := some "update"
        current_track := some "Song B"
        track_number := some 2
        total_tracks := some 5
        progress_percent := some 40
        progress_message := some "Processing track 2/5: Song B" }) :=
  ⟨rfl, rfl, rfl,
   (c1_processing_fallback stC1 2 "job1" {} eProc rfl rfl rfl).2.2.2.2.2.1⟩

/-- State for the C1 counterexample: the prior progress event's
`current_track` is `"1/2/3"`, which splits into three parts, not two. -/
def stC1x : SysState :=
  { taskInfo := fun id => if id = "jobx" then some {} else none
    taskStatus := fun id => if id = "jobx" then
        some [ { status := some "progress", track := some "Song T",
                 current_track := some (RawVal.str "1/2/3") },
               eProc ]
      else none
    files := fun _ => none }

/-- Counterexample to C1 as stated: for `current_track = "1/2/3"`,
splitting on `"/"` does *not* yield exactly two parts, so the stated
parsing policy requires the degraded text-only message
`"Processing: Song T"`; the code instead interprets the first two parts and
renders `"Processing track 1/2: Song T"` with `progress_percent = 50`. -/
theorem c1_exactly_two_parts_counterexample :
    (pySplitSlash "1/2/3").length = 3 ∧
    get_prg_file stC1x 0 "jobx" = Except.ok (GetResponse.cur
      { (mkBase stC1x 0 "jobx" {}) with
        event := some "update"
        current_track := some "Song T"
        track_number := some 1
        total_tracks := some 2
        progress_percent := some 50
        progress_message := some "Processing track 1/2: Song T" }) ∧
    ("Processing track 1/2: Song T" : String) ≠ "Processing: Song T" :=
  ⟨by decide, rfl, by decide⟩

/-! ## C4 -/

/-- C4 (actual code behavior at the failing inputs): for an identifier with
a traversal sequence (`".."` or `"/"`) that is unknown to the current
system, both fetch and delete run the traversal guard before touching the
filesystem — the result is the same for every possible filesystem content —
but the `abort(400, "Invalid file request")` raised by the guard is caught
by the blanket `except Exception` handler and surfaces as a 500 Internal
error, not as the claimed Invalid-Request. -/
theorem c4_traversal_guard_surfaces_internal :
    (∀ (files : String → Option (List LegacyLine)) (now : Int),
      get_prg_file { taskInfo := fun _ => none, taskStatus := fun _ => none, files := files }
        now "../secrets" =
        Except.error (ApiError.internal "An error occurred: 400 Bad Request: Invalid file request")) ∧
    (∀ (files : String → Option (List LegacyLine)) (now : Int),
      get_prg_file { taskInfo := fun _ => none, taskStatus := fun _ => none, files := files }
        now "di/r" =
        Except.error (ApiError.internal "An error occurred: 400 Bad Request: Invalid file request")) ∧
    (∀ (files : String → Option (List LegacyLine)) (cancel : String → GatewayOutcome),
      (delete_prg_file cancel
          { taskInfo := fun _ => none, taskStatus := fun _ => none, files := files }
          "../secrets").response =
        Except.error (ApiError.internal "An error occurred: 400 Bad Request: Invalid file request")) ∧
    (∀ (files : String → Option (List LegacyLine)) (cancel : String → GatewayOutcome),
      (delete_prg_file cancel
          { taskInfo := fun _ => none, taskStatus := fun _ => none, files := files }
          "di/r").response =
        Except.error (ApiError.internal "An error occurred: 400 Bad Request: Invalid file request")) ∧
    pyInStr ".." "../secrets" = true ∧ pyInStr "/" "di/r" = true :=
  ⟨fun _ _ => rfl, fun _ _ => rfl, fun _ _ => rfl, fun _ _ => rfl, rfl, rfl⟩

/-! ## C10 -/

/-- State for C10: a legacy directory holding a non-`.prg` file and a
`.prg` file; nothing in the current system. -/
def stC10 : SysState :=
  { taskInfo := fun _ => none
    taskStatus := fun _ => none
    files := fun id =>
      if id = "data.txt" then some [ { raw := "hello", parsed := none } ]
      else if id = "notes.prg" then some [ { raw := "x", parsed := none } ] else none }

/-- C10 (actual code behavior): fetch has no `.prg` requirement — a
non-`.prg` legacy file resolves successfully, and a missing file is the
only way to get Not-Found — while delete refuses every non-`.prg`
identifier; but that refusal surfaces as a 500 Internal error (the
`abort(400, "Only .prg files can be deleted")` executes inside the `try`
and is converted by the blanket `except Exception`), not as the claimed
Invalid-Request. -/
theorem c10_fetch_delete_suffix_asymmetry :
    get_prg_file stC10 0 "data.txt" =
      Except.ok (GetResponse.legacy
        (readLegacy "data.txt" 0 [ { raw := "hello", parsed := none } ])) ∧
    get_prg_file stC10 0 "missing.txt" =
      Except.error (ApiError.notFound "Task or file not found") ∧
    (delete_prg_file (fun _ => {}) stC10 "data.txt").response =
      Except.error
        (ApiError.internal "An error occurred: 400 Bad Request: Only .prg files can be deleted") ∧
    pyEndsWith "data.txt" ".prg" = false ∧
    (delete_prg_file (fun _ => {}) stC10 "notes.prg").response =
      Except.ok ("File " ++ "notes.prg" ++ " deleted successfully", 200) ∧
    ((delete_prg_file (fun _ => {}) stC10 "data.txt").state).files "data.txt" =
      some [ { raw := "hello", parsed := none } ] :=
  ⟨rfl, rfl, rfl, rfl, rfl, rfl⟩

/-! ## C8 -/

/-- The spec's example legacy file for C8 (three JSON-object lines). -/
def c8lines : List LegacyLine :=
  [ { raw := "\x7b\"display_title\":\"X\"\x7d",
      parsed := some (JsonVal.obj [("display_title", JsonVal.str "X")]) },
    { raw := "\x7b\"type\":\"album\",\"name\":\"Y\",\"artist\":\"Z\"\x7d",
      parsed := some (JsonVal.obj [("type", JsonVal.str "album"), ("name", JsonVal.str "Y"),
        ("artist", JsonVal.str "Z")]) },
    { raw := "\x7b\"status\":\"complete\"\x7d",
      parsed := some (JsonVal.obj [("status", JsonVal.str "complete")]) } ]

/-- State for the C8 witness: the spec's example file under a legacy id. -/
def stC8 : SysState :=
  { taskInfo := fun _ => none
    taskStatus := fun _ => none
    files := fun id => if id = "old.prg" then some c8lines else none }

/-- C8 (amended): for a legacy identifier whose file exists and is
non-empty, the view is derived line-wise — the first line, if parseable to
a JSON *object*, seeds `original_request` as follows: the object's own
`original_request` member when that member is itself an object; null when
the member is a truthy non-object (the display extraction raises and the
local handler resets the request); the member itself, with blank display
fields, when it is a falsy non-object (0, "", [], false, null); and the
whole object when the key is absent.  The second line, if present and
parseable to a JSON *object*, seeds type/name/artist; the last line becomes
`last_line` (its JSON value when parseable, else its raw text); the event
category is always `"unknown"`; and the spec's concrete example resolves to
`display_title="X"`, `type="album"`, `event="unknown"`,
`last_line={"status":"complete"}`. -/
theorem c8_legacy_line_seeding (st : SysState) (now : Int) (id : String)
    (lines : List LegacyLine) (l1 ll : LegacyLine)
    (hti : st.taskInfo id = none)
    (hdd : pyInStr ".." id = false) (hsl : pyInStr "/" id = false)
    (hfile : st.files id = some lines)
    (hhead : lines.head? = some l1)
    (hlastl : lines.getLast? = some ll) :
    get_prg_file st now id = Except.ok (GetResponse.legacy (readLegacy id now lines)) ∧
    (readLegacy id now lines).event = "unknown" ∧
    (∀ v, ll.parsed = some v → (readLegacy id now lines).last_line = v) ∧
    (ll.parsed = none → (readLegacy id now lines).last_line = JsonVal.str ll.raw) ∧
    (∀ kvs, l1.parsed = some (JsonVal.obj kvs) → jLookup kvs "original_request" = none →
      (readLegacy id now lines).original_request = JsonVal.obj kvs) ∧
    (∀ kvs okvs, l1.parsed = some (JsonVal.obj kvs) →
      jLookup kvs "original_request" = some (JsonVal.obj okvs) →
      (readLegacy id now lines).original_request = JsonVal.obj okvs) ∧
    (∀ kvs m, l1.parsed = some (JsonVal.obj kvs) →
      jLookup kvs "original_request" = some m →
      m.isObj = false → jTruthy m = true →
      (readLegacy id now lines).original_request = JsonVal.null ∧
      (readLegacy id now lines).display_title = JsonVal.str "") ∧
    (∀ kvs m, l1.parsed = some (JsonVal.obj kvs) →
      jLookup kvs "original_request" = some m →
      m.isObj = false → jTruthy m = false →
      (readLegacy id now lines).original_request = m ∧
      (readLegacy id now lines).display_title = JsonVal.str "") ∧
    (∀ l2 kvs2, lines.get? 1 = some l2 → l2.parsed = some (JsonVal.obj kvs2) →
      (readLegacy id now lines).type = jGetD kvs2 "type" (JsonVal.str "") ∧
      (readLegacy id now lines).name = jGetD kvs2 "name" (JsonVal.str "") ∧
      (readLegacy id now lines).artist = jGetD kvs2 "artist" (JsonVal.str "")) ∧
    ((readLegacy "old.prg" 4 c8lines).display_title = JsonVal.str "X" ∧
      (readLegacy "old.prg" 4 c8lines).type = JsonVal.str "album" ∧
      (readLegacy "old.prg" 4 c8lines).event = "unknown" ∧
      (readLegacy "old.prg" 4 c8lines).last_line =
        JsonVal.obj [("status", JsonVal.str "complete")]) := by
  obtain ⟨rest, rfl⟩ : ∃ rest, lines = l1 :: rest := by
    cases lines with
    | nil => exact absurd hhead (by simp)
    | cons a rest =>
      refine ⟨rest, ?_⟩
      simp only [List.head?] at hhead
      injection hhead with hhead
      rw [hhead]
  refine ⟨?_, rfl, ?_, ?_, ?_, ?_, ?_, ?_, ?_, rfl, rfl, rfl, rfl⟩
  · unfold get_prg_file get_task_info
    rw [hti]
    dsimp only
    rw [hdd, hsl, hfile]
    rfl
  · intro v hv
    simp only [readLegacy, hlastl, Option.getD_some, hv]
  · intro hv
    simp only [readLegacy, hlastl, Option.getD_some, hv]
  · intro kvs h1 hor
    simp only [readLegacy, firstLineInfo, h1]
    rw [hor]
    simp only [Option.getD_none]
    by_cases hk : kvs.isEmpty <;> simp [jTruthy, hk]
  · intro kvs okvs h1 hor
    simp only [readLegacy, firstLineInfo, h1]
    rw [hor]
    simp only [Option.getD_some]
    by_cases hk : okvs.isEmpty <;> simp [jTruthy, hk]
  · intro kvs m h1 hm hno htr
    cases m
    case obj okvs => simp [JsonVal.isObj] at hno
    all_goals
      simp only [readLegacy, firstLineInfo, h1]
      rw [hm]
      simp only [Option.getD_some]
      rw [if_pos htr]
      exact ⟨rfl, rfl⟩
  · intro kvs m h1 hm hno htr
    have hnt : ¬(jTruthy m = true) := by simp [htr]
    cases m
    case obj okvs => simp [JsonVal.isObj] at hno
    all_goals
      simp only [readLegacy, firstLineInfo, h1]
      rw [hm]
      simp only [Option.getD_some]
      rw [if_neg hnt]
      exact ⟨rfl, rfl⟩
  · intro l2 kvs2 h2 hp2
    cases rest with
    | nil => exact absurd h2 (by simp)
    | cons b rest2 =>
      simp only [List.get?] at h2
      injection h2 with h2
      subst h2
      simp only [readLegacy, secondLineInfo, List.get?, hp2]
      exact ⟨trivial, trivial, trivial⟩

/-- Witness for C8 at the spec's example file. -/
theorem c8_legacy_line_seeding_witness :
    stC8.taskInfo "old.prg" = none ∧
    pyInStr ".." "old.prg" = false ∧ pyInStr "/" "old.prg" = false ∧
    stC8.files "old.prg" = some c8lines ∧
    c8lines.head? = some
      { raw := "\x7b\"display_title\":\"X\"\x7d",
        parsed := some (JsonVal.obj [("display_title", JsonVal.str "X")]) } ∧
    c8lines.getLast? = some
      { raw := "\x7b\"status\":\"complete\"\x7d",
        parsed := some (JsonVal.obj [("status", JsonVal.str "complete")]) } ∧
    (get_prg_file stC8 4 "old.prg" =
      Except.ok (GetResponse.legacy (readLegacy "old.prg" 4 c8lines)) ∧
     (readLegacy "old.prg" 4 c8lines).event = "unknown") :=
  ⟨rfl, rfl, rfl, rfl, rfl, rfl,
   ⟨(c8_legacy_line_seeding stC8 4 "old.prg" c8lines
      { raw := "\x7b\"display_title\":\"X\"\x7d",
        parsed := some (JsonVal.obj [("display_title", JsonVal.str "X")]) }
      { raw := "\x7b\"status\":\"complete\"\x7d",
        parsed := some (JsonVal.obj [("status", JsonVal.str "complete")]) }
      rfl rfl rfl rfl rfl rfl).1,
    (c8_legacy_line_seeding stC8 4 "old.prg" c8lines
      { raw := "\x7b\"display_title\":\"X\"\x7d",
        parsed := some (JsonVal.obj [("display_title", JsonVal.str "X")]) }
      { raw := "\x7b\"status\":\"complete\"\x7d",
        parsed := some (JsonVal.obj [("status", JsonVal.str "complete")]) }
      rfl rfl rfl rfl rfl rfl).2.1⟩⟩

/-- File for the C8 counterexample: the first line is the JSON number `3` —
parseable JSON that is not an object. -/
def c8xlines : List LegacyLine :=
  [ { raw := "3", parsed := some (JsonVal.int 3) },
    { raw := "\x7b\"status\":\"complete\"\x7d",
      parsed := some (JsonVal.obj [("status", JsonVal.str "complete")]) } ]

/-- State for the C8 counterexample. -/
def stC8x : SysState :=
  { taskInfo := fun _ => none
    taskStatus := fun _ => none
    files := fun id => if id = "weird.prg" then some c8xlines else none }

/-- Counterexample to C8 as stated: the first line `3` is parseable JSON
and lacks an `original_request` field, so by the claim it should seed
`original_request` (with the value `3` itself); the code only accepts JSON
*objects* there and leaves `original_request` as null. -/
theorem c8_nonobject_first_line_counterexample :
    get_prg_file stC8x 0 "weird.prg" =
      Except.ok (GetResponse.legacy (readLegacy "weird.prg" 0 c8xlines)) ∧
    (readLegacy "weird.prg" 0 c8xlines).original_request = JsonVal.null ∧
    JsonVal.null ≠ JsonVal.int 3 :=
  ⟨rfl, rfl, fun h => JsonVal.noConfusion h⟩

end Spotizerr
